import Mathlib

/-
Verification of the finding normalization / clustering / consensus / metrics
pipeline of the candyshop-benchmark and ai-code-security-study repositories.

The Python sources embedded here:
  scripts/triage-consensus.py   (locations_match, extract_basename,
                                 extract_url_path, normalize_cwe,
                                 group_findings, triage_groups)
  scripts/normalize-results.py  (normalize_severity, severity tables,
                                 load_json / parse_trivy)
  scripts/calculate-fmeasure.py (extract_tool_findings, FN counting,
                                 precision / recall / f1 guards)
  analysis/validate.py          (deduplicate_findings key)

Strings are modelled as Lean `String`; all operations on them are defined
structurally over the underlying character list so that concrete inputs
evaluate inside the kernel.  Python string methods are modelled for ASCII
inputs (str.upper / str.lower / str.isdigit are Unicode-aware in Python;
every string these scripts compare is ASCII).
-/

/-! ### Python-style string primitives -/

/-- Python `str.strip()` whitespace set (space, tab, newline, CR, VT, FF). -/
def pyIsSpace (c : Char) : Bool :=
  c == ' ' || c == '\t' || c == '\n' || c == '\r' ||
  c == Char.ofNat 11 || c == Char.ofNat 12

/-- ASCII lowering of one character (Python `str.lower` on ASCII). -/
def asciiLower (c : Char) : Char :=
  if 'A' ≤ c ∧ c ≤ 'Z' then Char.ofNat (c.toNat + 32) else c

/-- ASCII raising of one character (Python `str.upper` on ASCII). -/
def asciiUpper (c : Char) : Char :=
  if 'a' ≤ c ∧ c ≤ 'z' then Char.ofNat (c.toNat - 32) else c

/-- Python `str.lower()` (ASCII model). -/
def pyLower (s : String) : String := String.mk (s.data.map asciiLower)

/-- Python `str.upper()` (ASCII model). -/
def pyUpper (s : String) : String := String.mk (s.data.map asciiUpper)

/-- Python `str.strip()`: drop whitespace from both ends. -/
def pyStrip (s : String) : String :=
  String.mk (((s.data.dropWhile pyIsSpace).reverse.dropWhile pyIsSpace).reverse)

/-- Python `'0' <= c <= '9'` (the ASCII case of `str.isdigit`). -/
def pyIsDigitChar (c : Char) : Bool := '0' ≤ c && c ≤ '9'

/-- Python `str.isdigit()`: non-empty and all digits (ASCII model). -/
def pyIsDigitStr (s : String) : Bool :=
  !s.data.isEmpty && s.data.all pyIsDigitChar

/-- Auxiliary splitter: split a character list at every separator. -/
def splitChAux (sep : Char) : List Char → List Char → List (List Char)
  | [], acc => [acc.reverse]
  | c :: rest, acc =>
    if c == sep then acc.reverse :: splitChAux sep rest []
    else splitChAux sep rest (c :: acc)

/-- Split a character list on a separator character (Python `str.split(sep)`:
`"" → [""]`, separators at the ends produce empty pieces). -/
def splitListCh (sep : Char) (l : List Char) : List (List Char) :=
  splitChAux sep l []

/-- Python `str.split(sep)` for a one-character separator. -/
def pySplitCh (sep : Char) (s : String) : List String :=
  (splitListCh sep s.data).map String.mk

/-- Whether the first list is an initial segment of the second. -/
def listIsPrefix : List Char → List Char → Bool
  | [], _ => true
  | _ :: _, [] => false
  | x :: xs, y :: ys => x == y && listIsPrefix xs ys

/-- Python `s.startswith(p)`. -/
def strStartsWith (s p : String) : Bool := listIsPrefix p.data s.data

/-- Python `str(n:int)`-free substring: drop the first `n` characters. -/
def strDrop (s : String) (n : Nat) : String := String.mk (s.data.drop n)

/-- Python `sep.join(xs)`. -/
def joinSep (sep : String) : List String → String
  | [] => ""
  | [x] => x
  | x :: y :: rest => x ++ sep ++ joinSep sep (y :: rest)

/-- Join character-list segments with a separator character. -/
def joinListCh (sep : Char) : List (List Char) → List Char
  | [] => []
  | [x] => x
  | x :: y :: rest => x ++ sep :: joinListCh sep (y :: rest)

/-- Strict lexicographic order on character lists by code point
(Python string `<`). -/
def charListLt : List Char → List Char → Bool
  | [], [] => false
  | [], _ :: _ => true
  | _ :: _, [] => false
  | x :: xs, y :: ys =>
    if x.toNat < y.toNat then true
    else if y.toNat < x.toNat then false
    else charListLt xs ys

/-- Python string `<`. -/
def strLtB (a b : String) : Bool := charListLt a.data b.data

/-- Insertion step of a stable string sort. -/
def insertSorted (x : String) : List String → List String
  | [] => [x]
  | y :: ys => if strLtB x y then x :: y :: ys else y :: insertSorted x ys

/-- Sort a list of strings ascending (Python `sorted`). -/
def sortStrings (l : List String) : List String := l.foldr insertSorted []

/-- Python `sorted(set(xs))`: distinct values in ascending order. -/
def sortedSet (l : List String) : List String := sortStrings l.eraseDups

/-! ### urllib.parse path extraction

`urlparse(u).path` for an `http://` / `https://` URL `u`: the fragment
(first `#`) and query (first `?`) are removed, the scheme and the netloc
(authority up to the first `/`) are removed, and a `;params` suffix of the
last path segment is split off. -/

/-- Drop a trailing `;params` from the last `/`-segment
(urllib's `_splitparams`). -/
def stripParams (path : List Char) : List Char :=
  match splitListCh '/' path with
  | [] => []
  | segs =>
    joinListCh '/' (segs.dropLast ++ [(segs.getLastD []).takeWhile (· ≠ ';')])

/-- `urlparse(u).path` for a URL that starts with `http://` or `https://`. -/
def urlparsePath (u : String) : String :=
  let noFrag := u.data.takeWhile (· ≠ '#')
  let noQuery := noFrag.takeWhile (· ≠ '?')
  let afterScheme := (noQuery.dropWhile (· ≠ ':')).drop 1
  let afterSlashes := afterScheme.drop 2
  let path := afterSlashes.dropWhile (· ≠ '/')
  String.mk (stripParams path)

/-! ### triage-consensus.py helpers -/

/-- `extract_url_path` (triage-consensus.py): the URL path component, or `""`
for non-URL locations. -/
def extract_url_path (location : String) : String :=
  if location == "" then ""
  else
    let loc := pyStrip location
    if strStartsWith loc "http://" || strStartsWith loc "https://" then
      urlparsePath loc
    else ""

/-- `extract_basename` (triage-consensus.py): file basename of a location,
with URL paths extracted and `:line` / `:line:col` suffixes stripped. -/
def extract_basename (location : String) : String :=
  if location == "" then ""
  else
    let loc0 := pyStrip location
    let loc1 :=
      if strStartsWith loc0 "http://" || strStartsWith loc0 "https://" then
        urlparsePath loc0
      else loc0
    let parts := pySplitCh ':' loc1
    let loc2 :=
      if parts.length > 1 ∧ pyIsDigitStr (parts.getLastD "") then
        if parts.length > 2 ∧ pyIsDigitStr (parts.getD (parts.length - 2) "") then
          joinSep ":" parts.dropLast.dropLast
        else parts.headD ""
      else loc1
    if loc2 == "" then "" else (pySplitCh '/' loc2).getLastD ""

/-- `locations_match` (triage-consensus.py): URL-path equality when both are
URLs, otherwise non-empty basename equality. -/
def locations_match (loc_a loc_b : String) : Bool :=
  if loc_a = "" ∨ loc_b = "" then false
  else if extract_url_path loc_a ≠ "" ∧ extract_url_path loc_b ≠ "" then
    extract_url_path loc_a == extract_url_path loc_b
  else if extract_basename loc_a ≠ "" ∧ extract_basename loc_b ≠ "" then
    extract_basename loc_a == extract_basename loc_b
  else false

/-- `normalize_cwe` (triage-consensus.py): `'CWE-79'`, `'cwe-79'`, `'79'`
all become `'CWE-79'`. -/
def normalize_cwe (s : String) : String :=
  if s = "" then ""
  else if strStartsWith (pyUpper (pyStrip s)) "CWE-" then pyUpper (pyStrip s)
  else if pyIsDigitStr (pyUpper (pyStrip s)) then "CWE-" ++ pyUpper (pyStrip s)
  else pyUpper (pyStrip s)

/-! ### Data model -/

/-- One normalized finding row (columns read by triage-consensus.py). -/
structure Finding where
  tool : String
  target : String
  cwe : String
  severity : String
  location : String
  description : String
deriving DecidableEq

/-- One ground-truth row as loaded by triage-consensus.py. -/
structure GTEntry where
  target : String
  cwe : String
  location : String
deriving DecidableEq

/-! ### group_findings (triage-consensus.py) -/

/-- One step of the second pass of `group_findings`: place `f` into the first
existing cluster holding a location match, else open a new cluster at the
end. -/
def cluster_step (clusters : List (List Finding)) (f : Finding) :
    List (List Finding) :=
  match clusters with
  | [] => [[f]]
  | c :: rest =>
    if c.any (fun e => locations_match f.location e.location) then
      (c ++ [f]) :: rest
    else c :: cluster_step rest f

/-- The location-similarity clustering of one `(target, cwe)` bucket, in the
bucket's processing order. -/
def cluster_bucket (fs : List Finding) : List (List Finding) :=
  fs.foldl cluster_step []

/-- First pass of `group_findings`: the `(target, cwe)` bucket keys in first
appearance order. -/
def bucket_keys (fs : List Finding) : List (String × String) :=
  (fs.map (fun f => (f.target, f.cwe))).eraseDups

/-- The findings of one `(target, cwe)` bucket, in input order. -/
def bucket_of (fs : List Finding) (k : String × String) : List Finding :=
  fs.filter (fun f => f.target == k.1 && f.cwe == k.2)

/-- `group_findings` (triage-consensus.py): bucket by `(target, cwe)`, then
cluster each bucket by location similarity; keys are
`(target, cwe, cluster_idx)`. -/
def group_findings (fs : List Finding) :
    List ((String × String × Nat) × List Finding) :=
  (bucket_keys fs).flatMap (fun k =>
    (cluster_bucket (bucket_of fs k)).enum.map
      (fun ic => ((k.1, k.2, ic.1), ic.2)))


/-! ### triage_groups (triage-consensus.py) -/

/-- `SEVERITY_ORDER` (triage-consensus.py). -/
def SEVERITY_ORDER : List (String × Int) :=
  [("critical", 4), ("high", 3), ("medium", 2), ("low", 1), ("info", 0)]

/-- `severity_rank` (triage-consensus.py): numeric rank of a severity label,
`-1` when unknown. -/
def severity_rank (sev : String) : Int :=
  (SEVERITY_ORDER.lookup (pyLower (pyStrip sev))).getD (-1)

/-- `highest_severity` (triage-consensus.py): Python `max(…, key=severity_rank,
default="unknown")` keeps the first maximal element; an unranked best is
reported as `"unknown"`. -/
def highest_severity (sevs : List String) : String :=
  match sevs with
  | [] => "unknown"
  | s :: rest =>
    let best := rest.foldl
      (fun b x => if severity_rank b < severity_rank x then x else b) s
    if 0 ≤ severity_rank best then best else "unknown"

/-- First non-empty string of a list, else `""` (the representative-location
and representative-description loops of `triage_groups`). -/
def firstNonEmpty : List String → String
  | [] => ""
  | s :: rest => if s == "" then firstNonEmpty rest else s

/-- `check_ground_truth` (triage-consensus.py): whether any ground-truth entry
carries this `(target, cwe)` key (via the `build_gt_index` lookup). -/
def check_ground_truth (target cwe : String) (gt : List GTEntry) : Bool :=
  decide (0 < (gt.filter (fun e => e.target == target && e.cwe == cwe)).length)

/-- One row of the per-target triage CSV (columns written by
`triage_groups`; the sequential `finding_group_id` is a formatting artifact
not read back by any later stage and is omitted; `tool_count` is serialized
as a decimal string). -/
structure TriageRow where
  tools : String
  target : String
  cwe : String
  severity : String
  location : String
  description : String
  verdict : String
  confidence : String
  ground_truth_match : String
  tool_count : Nat
deriving DecidableEq

/-- The per-group body of the `triage_groups` loop (triage-consensus.py
lines 274-328): consensus verdict and confidence plus the representative
fields for one cluster. -/
def triage_group (target cwe : String) (cluster : List Finding)
    (gt : List GTEntry) : TriageRow :=
  let tools := sortedSet (cluster.map (fun f => f.tool))
  let tool_count := tools.length
  let gt_match := check_ground_truth target cwe gt
  let vc : String × String :=
    if 2 ≤ tool_count then ("TP", "high")
    else if tool_count == 1 && gt_match then ("TP", "medium")
    else ("pending", "low")
  { tools := joinSep "|" tools
    target := target
    cwe := cwe
    severity := highest_severity (cluster.map (fun f => f.severity))
    location := firstNonEmpty (cluster.map (fun f => f.location))
    description := firstNonEmpty (cluster.map (fun f => f.description))
    verdict := vc.1
    confidence := vc.2
    ground_truth_match := if gt_match then "yes" else "no"
    tool_count := tool_count }

/-- The Consensus Classifier rules exactly as the spec states them (§4.4):
two or more tools → TP/high; one tool with a ground-truth `(target, cwe)`
match → TP/medium; otherwise pending/low.  Stated from the spec's words for
comparison with `triage_group`. -/
def consensus_spec (tool_count : Nat) (gt_match : Bool) : String × String :=
  if 2 ≤ tool_count then ("TP", "high")
  else if tool_count == 1 && gt_match then ("TP", "medium")
  else ("pending", "low")

/-! ### normalize-results.py: severity normalization -/

/-- `TRIVY_SEVERITY` (normalize-results.py). -/
def TRIVY_SEVERITY : List (String × String) :=
  [("CRITICAL", "CRITICAL"), ("HIGH", "HIGH"), ("MEDIUM", "MEDIUM"),
   ("LOW", "LOW"), ("UNKNOWN", "INFO")]

/-- `GRYPE_SEVERITY` (normalize-results.py). -/
def GRYPE_SEVERITY : List (String × String) :=
  [("Critical", "CRITICAL"), ("High", "HIGH"), ("Medium", "MEDIUM"),
   ("Low", "LOW"), ("Negligible", "INFO")]

/-- `NODEJSSCAN_SEVERITY` (normalize-results.py). -/
def NODEJSSCAN_SEVERITY : List (String × String) :=
  [("ERROR", "HIGH"), ("WARNING", "MEDIUM"), ("INFO", "LOW")]

/-- `ZAP_RISK` (normalize-results.py). -/
def ZAP_RISK : List (String × String) :=
  [("3", "HIGH"), ("2", "MEDIUM"), ("1", "LOW"), ("0", "INFO")]

/-- `STANDARD_SEVERITY` (normalize-results.py). -/
def STANDARD_SEVERITY : List (String × String) :=
  [("critical", "CRITICAL"), ("high", "HIGH"), ("medium", "MEDIUM"),
   ("low", "LOW"), ("info", "INFO"), ("warning", "MEDIUM"), ("error", "HIGH")]

/-- Python `dict.get(key)` over an association list, with the `None` of a
missing key collapsed to `""` (both are falsy in the `or` / `if result:`
chains of `normalize_severity`; no severity table maps to `""`). -/
def pyDictGet : List (String × String) → String → String
  | [], _ => ""
  | (k, v) :: rest, key => if key == k then v else pyDictGet rest key

/-- Case-insensitive association-list lookup (used only to state the claimed
behavior of the first normalization tier). -/
def pyDictGetCI : List (String × String) → String → String
  | [], _ => ""
  | (k, v) :: rest, key => if pyLower key == pyLower k then v else pyDictGetCI rest key

/-- The five canonical severity labels. -/
def is_sev5 (s : String) : Bool :=
  s == "CRITICAL" || s == "HIGH" || s == "MEDIUM" || s == "LOW" || s == "INFO"

/-- `normalize_severity` (normalize-results.py): exact-key lookup in the
tool-family table (`mapping.get(raw) or mapping.get(str(raw))` — identical
for string input), then case-insensitive standard lookup, then an uppercase
validity check, defaulting to INFO.  A call with `mapping=None` is the
empty table. -/
def normalize_severity (raw : String) (mapping : List (String × String)) :
    String :=
  if raw = "" then "INFO"
  else if pyDictGet mapping raw ≠ "" then pyDictGet mapping raw
  else if pyDictGet STANDARD_SEVERITY (pyLower raw) ≠ "" then
    pyDictGet STANDARD_SEVERITY (pyLower raw)
  else if is_sev5 (pyUpper raw) then pyUpper raw
  else "INFO"

/-- The severity normalization exactly as claim C5 words it: a
*case-insensitive* lookup in the tool-family table first, then the generic
case-insensitive table, then INFO.  Stated from the claim's words for
comparison with `normalize_severity`. -/
def normalize_severity_claimed (raw : String)
    (mapping : List (String × String)) : String :=
  if raw = "" then "INFO"
  else if pyDictGetCI mapping raw ≠ "" then pyDictGetCI mapping raw
  else if pyDictGetCI STANDARD_SEVERITY raw ≠ "" then
    pyDictGetCI STANDARD_SEVERITY raw
  else "INFO"

/-! ### calculate-fmeasure.py -/

/-- One ground-truth CSV row as read by calculate-fmeasure.py (only the `cwe`
column is consulted by the FN loop). -/
structure FmGtRow where
  cwe : String
deriving DecidableEq

/-- The FN loop of `calculate_fmeasure` (lines 190-195): one count per
ground-truth row whose stripped CWE is not among the tool's TP CWEs. -/
def count_fn (gt_entries : List FmGtRow) (tp_cwes : List String) : Nat :=
  gt_entries.foldl
    (fun fn row => if pyStrip row.cwe ∈ tp_cwes then fn else fn + 1) 0

/-- The tools-cell split of `extract_tool_findings` (calculate-fmeasure.py
line 141): split on commas, strip, lowercase, drop empties. -/
def parse_tools_cell (s : String) : List String :=
  (pySplitCh ',' s).filterMap
    (fun t => if pyStrip t == "" then none else some (pyLower (pyStrip t)))

/-- Per-(tool, target) accumulator of `extract_tool_findings`. -/
structure ToolStats where
  tp : Nat := 0
  fp : Nat := 0
  tp_cwes : List String := []
deriving DecidableEq

/-- One row-step of `extract_tool_findings` for a fixed tool name: rows with
a blank tools cell are skipped; a TP row increments `tp` (recording a
non-empty CWE); an FP row increments `fp`. -/
def stats_step (tool : String) (acc : ToolStats) (row : TriageRow) :
    ToolStats :=
  let ts := pyStrip row.tools
  if ts == "" then acc
  else
    let tools := parse_tools_cell ts
    let verdict := pyUpper (pyStrip row.verdict)
    let cwe := pyStrip row.cwe
    if tool ∈ tools then
      if verdict == "TP" then
        { acc with
          tp := acc.tp + 1
          tp_cwes :=
            if cwe ≠ "" ∧ cwe ∉ acc.tp_cwes then acc.tp_cwes ++ [cwe]
            else acc.tp_cwes }
      else if verdict == "FP" then { acc with fp := acc.fp + 1 }
      else acc
    else acc

/-- The `(tool, target)` slice of the `tool_stats` dictionary built by
`extract_tool_findings`, over the triage rows of one target. -/
def extract_tool_stats (rows : List TriageRow) (tool : String) : ToolStats :=
  rows.foldl (stats_step tool) {}

/-- Python `round(x, 3)` idealized over ℚ (ties, which Python rounds to
even, do not arise in any property below). -/
def py_round3 (x : ℚ) : ℚ := (round (1000 * x) : ℤ) / 1000

/-- The precision formula of `calculate_fmeasure` (line 200). -/
def precision_of (tp fp : ℕ) : ℚ :=
  if 0 < tp + fp then py_round3 ((tp : ℚ) / ((tp : ℚ) + (fp : ℚ))) else 0

/-- The recall formula of `calculate_fmeasure` (line 201). -/
def recall_of (tp fn : ℕ) : ℚ :=
  if 0 < tp + fn then py_round3 ((tp : ℚ) / ((tp : ℚ) + (fn : ℚ))) else 0

/-- The f1 formula of `calculate_fmeasure` (line 202). -/
def f1_of (p r : ℚ) : ℚ :=
  if 0 < p + r then py_round3 (2 * p * r / (p + r)) else 0

/-! ### validate.py (ai-code-security-study-2026): deduplicate_findings -/

/-- One raw scan finding as consumed by `deduplicate_findings` (the fields
its key construction reads). -/
structure VFinding where
  model : String
  file : String
  cwe : String
  tool : String
  rule_id : String
deriving DecidableEq

/-- The dedup key of `deduplicate_findings` (validate.py lines 122-128):
`(model, file, cwe)` for a CWE-carrying finding, and
`(model, file, "_nocwe_{tool}_{rule_id}")` for a finding without a CWE. -/
def dedupKey (f : VFinding) : String × String × String :=
  if pyStrip f.cwe = "" then
    (f.model, f.file, "_nocwe_" ++ (f.tool ++ ("_" ++ f.rule_id)))
  else (f.model, f.file, pyStrip f.cwe)

/-- The grouping of `deduplicate_findings`: one group per distinct key in
first-appearance order, each holding its findings in input order (each group
becomes one output row). -/
def dedupGroups (fs : List VFinding) :
    List ((String × String × String) × List VFinding) :=
  ((fs.map dedupKey).eraseDups).map
    (fun k => (k, fs.filter (fun f => dedupKey f == k)))

/-! ### normalize-results.py: load_json and parse_trivy

`load_json` catches JSON decode and IO errors, warns and returns `None`;
this is modelled as `Option Json` input to the adapter (`none` = the file
was unreadable or not parseable as JSON).  Python runtime exceptions raised
by the adapter itself are modelled in `Except String`; error strings name
the Python exception class coarsely. -/

/-- A parsed JSON value (numbers as integers — the trivy fields the adapter
touches are strings and lists). -/
inductive Json where
  | null : Json
  | bool : Bool → Json
  | num : Int → Json
  | str : String → Json
  | arr : List Json → Json
  | obj : List (String × Json) → Json

/-- Python truthiness of a JSON-shaped value. -/
def pyTruthy : Json → Bool
  | .null => false
  | .bool b => b
  | .num n => n != 0
  | .str s => s != ""
  | .arr xs => !xs.isEmpty
  | .obj kvs => !kvs.isEmpty

/-- First-match association lookup among JSON object members. -/
def jsonLookup : List (String × Json) → String → Json
  | [], _ => .null
  | (k, v) :: rest, key => if key == k then v else jsonLookup rest key

/-- Python `x.get(key)`: `None` (`.null`) when the key is absent, and an
`AttributeError` when `x` is not a dict. -/
def pyDictGetJ (j : Json) (key : String) : Except String Json :=
  match j with
  | .obj kvs => .ok (jsonLookup kvs key)
  | _ => .error "AttributeError"

/-- Python `x.get(key, default)`. -/
def pyDictGetJD (j : Json) (key : String) (default : Json) :
    Except String Json :=
  match j with
  | .obj kvs => .ok (match jsonLookup kvs key with
      | .null => default
      | v => v)
  | _ => .error "AttributeError"

/-- Python `x.get(key) or []`. -/
def pyGetOrEmptyList (j : Json) (key : String) : Except String Json := do
  let v ← pyDictGetJ j key
  pure (if pyTruthy v then v else .arr [])

/-- Python `for x in j`: lists yield their elements, dicts their keys,
strings their characters; other values are not iterable. -/
def pyIterate (j : Json) : Except String (List Json) :=
  match j with
  | .arr xs => .ok xs
  | .obj kvs => .ok (kvs.map (fun kv => Json.str kv.1))
  | .str s => .ok (s.data.map (fun c => Json.str (String.mk [c])))
  | _ => .error "TypeError"

/-- Python `x[0]` on a JSON-shaped value. -/
def pyIndex0 (j : Json) : Except String Json :=
  match j with
  | .arr (x :: _) => .ok x
  | .str s =>
    match s.data with
    | c :: _ => .ok (.str (String.mk [c]))
    | [] => .error "IndexError"
  | .arr [] => .error "IndexError"
  | _ => .error "TypeError"

/-- Python `str(x)` for the scalar JSON values (the adapters only stringify
scalar fields; container reprs are abbreviated and exercised by no claim). -/
def pyStr : Json → String
  | .null => "None"
  | .bool true => "True"
  | .bool false => "False"
  | .num n => toString n
  | .str s => s
  | .arr _ => "<list>"
  | .obj _ => "<dict>"

/-- Python `str.split()` with no separator: whitespace-run splitting with no
empty pieces. -/
def splitWsAux : List Char → List Char → List (List Char)
  | [], acc => if acc.isEmpty then [] else [acc.reverse]
  | c :: rest, acc =>
    if pyIsSpace c then
      if acc.isEmpty then splitWsAux rest []
      else acc.reverse :: splitWsAux rest []
    else splitWsAux rest (c :: acc)

/-- `sanitize` (normalize-results.py): falsy values become `""`; otherwise
whitespace runs are collapsed to single spaces. -/
def sanitize (j : Json) : String :=
  if pyTruthy j then
    joinSep " " ((splitWsAux (pyStr j).data []).map String.mk)
  else ""

/-- `normalize_severity(raw, TRIVY_SEVERITY)` applied to the raw JSON field:
falsy values normalize to INFO, strings go through the table chain, and a
truthy non-string fails Python's `raw.lower()` attribute access. -/
def normalize_severity_j (j : Json) (mapping : List (String × String)) :
    Except String String :=
  match j with
  | .str s => .ok (normalize_severity s mapping)
  | .null => .ok "INFO"
  | .bool false => .ok "INFO"
  | .num 0 => .ok "INFO"
  | .arr [] => .ok "INFO"
  | .obj [] => .ok "INFO"
  | _ => .error "AttributeError"

/-- The canonical finding record built by a schema adapter
(normalize-results.py).  `cwe` and `raw_id` hold the raw JSON values the
Python dict stores (stringified only at CSV-writing time). -/
structure RawFinding where
  tool : String
  target : String
  category : String
  cwe : Json
  severity : String
  location : String
  description : String
  raw_id : Json

/-- The per-vulnerability body of `parse_trivy` (normalize-results.py
lines 206-221). -/
def trivy_finding_of (target : String) (v : Json) :
    Except String RawFinding := do
  let cweListJ ← pyGetOrEmptyList v "CweIDs"
  let cwe ← if pyTruthy cweListJ then pyIndex0 cweListJ
            else pure (Json.str "")
  let pkgJ ← pyDictGetJD v "PkgName" (.str "")
  let verJ ← pyDictGetJD v "InstalledVersion" (.str "")
  let sevJ ← pyDictGetJ v "Severity"
  let sev ← normalize_severity_j sevJ TRIVY_SEVERITY
  let titleJ ← pyDictGetJ v "Title"
  let descJ ← pyDictGetJD v "Description" (.str "")
  let rawIdJ ← pyDictGetJD v "VulnerabilityID" (.str "")
  pure { tool := "trivy"
         target := target
         category := "container"
         cwe := cwe
         severity := sev
         location :=
           if pyTruthy pkgJ then pyStr pkgJ ++ "@" ++ pyStr verJ else ""
         description := sanitize (if pyTruthy titleJ then titleJ else descJ)
         raw_id := rawIdJ }

/-- `parse_trivy` (normalize-results.py lines 198-222): `none` models a file
`load_json` could not parse (warning logged, empty list returned); a parsed
value is walked as `data.get("Results")` → blocks →
`block.get("Vulnerabilities")` → findings. -/
def parse_trivy (data : Option Json) (target : String) :
    Except String (List RawFinding) := do
  match data with
  | none => pure []
  | some d =>
    let resultsJ ← pyGetOrEmptyList d "Results"
    let blocks ← pyIterate resultsJ
    let fss ← blocks.mapM (fun b => do
      let vulnsJ ← pyGetOrEmptyList b "Vulnerabilities"
      let vs ← pyIterate vulnsJ
      vs.mapM (trivy_finding_of target))
    pure fss.flatten

/-! ### The canonical CWE pattern and well-formed CWE inputs -/

/-- Whether a string matches `CWE-\d+`. -/
def cwe_pattern (s : String) : Bool :=
  strStartsWith s "CWE-" && pyIsDigitStr (strDrop s 4)

/-- The input shapes the spec says `normalize_cwe` accepts: empty (after
stripping), bare digits, or `CWE-`/`cwe-` followed by digits (any case). -/
def cwe_input_wellformed (s : String) : Bool :=
  pyUpper (pyStrip s) == "" || pyIsDigitStr (pyUpper (pyStrip s)) ||
  (strStartsWith (pyUpper (pyStrip s)) "CWE-" &&
    pyIsDigitStr (strDrop (pyUpper (pyStrip s)) 4))

/-! ### Concrete instances used by the evaluation theorems -/

/-- C1: a URL-location finding whose basename is `file.js`. -/
def c1A : Finding :=
  ⟨"bandit", "t", "CWE-89", "high", "http://h/d/file.js", ""⟩

/-- C1: a path-location finding with the same basename (matches both
`c1A` and `c1C` by basename). -/
def c1B : Finding := ⟨"bearer", "t", "CWE-89", "medium", "/x/file.js", ""⟩

/-- C1: a URL-location finding whose URL path differs from `c1A`'s. -/
def c1C : Finding := ⟨"zap", "t", "CWE-89", "low", "http://h2/e/file.js", ""⟩

/-- C2: an empty-CWE finding from one tool. -/
def c2F1 : Finding := ⟨"bandit", "t", "", "low", "a/file.py", ""⟩

/-- C2: an empty-CWE finding from another tool, matching `c2F1`'s location
by basename. -/
def c2F2 : Finding := ⟨"bearer", "t", "", "low", "b/file.py", ""⟩

/-- C2: an empty-CWE validate.py finding from one tool. -/
def c2vF1 : VFinding := ⟨"m1", "app.py", "", "bandit", "B101"⟩

/-- C2: an empty-CWE validate.py finding from another tool, same model and
file. -/
def c2vF2 : VFinding := ⟨"m1", "app.py", "", "semgrep", "R1"⟩

/-- C7: a bearer finding clustered with `c7zap`. -/
def c7bearer : Finding :=
  ⟨"bearer", "juice-shop", "CWE-89", "high", "a/login.py:42", "sqli"⟩

/-- C7: a zap finding clustered with `c7bearer`. -/
def c7zap : Finding :=
  ⟨"zap", "juice-shop", "CWE-89", "medium", "http://h/login.py", "sqli"⟩

/-- C7: the triage row the consensus stage writes for the two-tool group. -/
def c7row : TriageRow := triage_group "juice-shop" "CWE-89" [c7bearer, c7zap] []

/-! ### Helper lemmas -/

theorem strData_append (a b : String) : (a ++ b).data = a.data ++ b.data := rfl

theorem strAppend_left_cancel {a b c : String} (h : a ++ b = a ++ c) : b = c := by
  have h2 : a.data ++ b.data = a.data ++ c.data := by
    rw [← strData_append, ← strData_append, h]
  exact congrArg String.mk (List.append_cancel_left h2)

theorem strBeq_comm (x y : String) : (x == y) = (y == x) := by
  by_cases h : x = y
  · rw [h]
  · rw [beq_eq_false_iff_ne.mpr h, beq_eq_false_iff_ne.mpr (Ne.symm h)]

theorem listIsPrefix_append (p r : List Char) : listIsPrefix p (p ++ r) = true := by
  induction p with
  | nil => rfl
  | cons x xs ih => simp [listIsPrefix, ih]

theorem pyDictGet_mem (tbl : List (String × String)) (key : String) :
    pyDictGet tbl key = "" ∨ ∃ p ∈ tbl, p.2 = pyDictGet tbl key := by
  induction tbl with
  | nil => left; rfl
  | cons p rest ih =>
    by_cases hb : key == p.1
    · right
      exact ⟨p, List.mem_cons_self p rest, by simp [pyDictGet, hb]⟩
    · rcases ih with h | ⟨q, hq, he⟩
      · left; simpa [pyDictGet, hb] using h
      · right; exact ⟨q, List.mem_cons_of_mem p hq, by simpa [pyDictGet, hb] using he⟩

theorem is_sev5_ne_empty {x : String} (hx : is_sev5 x = true) : x ≠ "" :=
  fun he => absurd (he ▸ hx) (by decide)

/-! ### Claim theorems -/

/-- Claim C10: `locations_match` is symmetric in its two arguments. -/
theorem c10_locations_match_symm (a b : String) :
    locations_match a b = locations_match b a := by
  unfold locations_match
  by_cases h1 : a = "" ∨ b = ""
  · rw [if_pos h1, if_pos (Or.symm h1)]
  · rw [if_neg h1, if_neg (fun hc => h1 (Or.symm hc))]
    by_cases h2 : extract_url_path a ≠ "" ∧ extract_url_path b ≠ ""
    · rw [if_pos h2, if_pos (And.symm h2)]
      exact strBeq_comm _ _
    · rw [if_neg h2, if_neg (fun hc => h2 (And.symm hc))]
      by_cases h3 : extract_basename a ≠ "" ∧ extract_basename b ≠ ""
      · rw [if_pos h3, if_pos (And.symm h3)]
        exact strBeq_comm _ _
      · rw [if_neg h3, if_neg (fun hc => h3 (And.symm hc))]

/-- Claim C1 (code bug): the second pass of `group_findings` is a greedy
single pass that never merges existing clusters.  With `c1A ~ c1B` and
`c1B ~ c1C` but `c1A ≁ c1C`, processing order `[c1A, c1C, c1B]` leaves two
groups — not the single connected component — while order
`[c1A, c1B, c1C]` yields one group, so the result also depends on the
processing order. -/
theorem c1_grouping_not_connected_components :
    locations_match c1A.location c1B.location = true ∧
    locations_match c1B.location c1C.location = true ∧
    locations_match c1A.location c1C.location = false ∧
    group_findings [c1A, c1C, c1B] =
      [(("t", "CWE-89", 0), [c1A, c1B]), (("t", "CWE-89", 1), [c1C])] ∧
    group_findings [c1A, c1B, c1C] =
      [(("t", "CWE-89", 0), [c1A, c1B, c1C])] := by decide

/-- Claim C2, counterexample: two empty-CWE findings from different tools on
the same target with matching locations are merged into one FindingGroup by
`group_findings` — there is no `_nocwe_` alternate key in the clustering. -/
theorem c2_empty_cwe_findings_merged :
    c2F1.cwe = "" ∧ c2F2.cwe = "" ∧ c2F1.tool ≠ c2F2.tool ∧
    locations_match c2F1.location c2F2.location = true ∧
    group_findings [c2F1, c2F2] = [(("t", "", 0), [c2F1, c2F2])] := by decide

/-- Claim C2, amended: the `_nocwe_` alternate key lives in validate.py's
`deduplicate_findings`.  There, two empty-CWE findings whose
`"{tool}_{rule_id}"` tags differ never share a dedup group, whatever else is
in the input. -/
theorem c2_validate_nocwe_never_merged
    (fs : List VFinding) (f g : VFinding)
    (k : String × String × String) (m : List VFinding)
    (hf : pyStrip f.cwe = "") (hg : pyStrip g.cwe = "")
    (hne : f.tool ++ ("_" ++ f.rule_id) ≠ g.tool ++ ("_" ++ g.rule_id))
    (hm : (k, m) ∈ dedupGroups fs) (hfm : f ∈ m) : g ∉ m := by
  intro hgm
  obtain ⟨k', _, heq⟩ := List.mem_map.mp hm
  have hmm : fs.filter (fun x => dedupKey x == k') = m := congrArg Prod.snd heq
  have hfm2 : f ∈ fs.filter (fun x => dedupKey x == k') := hmm.symm ▸ hfm
  have hgm2 : g ∈ fs.filter (fun x => dedupKey x == k') := hmm.symm ▸ hgm
  have hkf : dedupKey f = k' := beq_iff_eq.mp (List.mem_filter.mp hfm2).2
  have hkg : dedupKey g = k' := beq_iff_eq.mp (List.mem_filter.mp hgm2).2
  have hfg : dedupKey f = dedupKey g := hkf.trans hkg.symm
  unfold dedupKey at hfg
  rw [if_pos hf, if_pos hg] at hfg
  have h3 : "_nocwe_" ++ (f.tool ++ ("_" ++ f.rule_id)) =
      "_nocwe_" ++ (g.tool ++ ("_" ++ g.rule_id)) :=
    congrArg (fun p => p.2.2) hfg
  exact hne (strAppend_left_cancel h3)

/-- Witness for `c2_validate_nocwe_never_merged` at the concrete pair
`c2vF1`, `c2vF2` inside the input `[c2vF1, c2vF2]`. -/
theorem c2_validate_nocwe_never_merged_witness : c2vF2 ∉ [c2vF1] :=
  c2_validate_nocwe_never_merged [c2vF1, c2vF2] c2vF1 c2vF2
    (dedupKey c2vF1) [c2vF1] (by decide) (by decide) (by decide)
    (by decide) (by decide)

/-- Claim C3: for every group, `triage_groups` assigns exactly the verdict
and confidence the spec's consensus rules dictate — TP/high for at least two
distinct tools, TP/medium for one tool with a ground-truth `(target, cwe)`
match, pending/low otherwise — and the verdict FP is never produced. -/
theorem c3_consensus_matches_spec (target cwe : String)
    (cluster : List Finding) (gt : List GTEntry) :
    ((triage_group target cwe cluster gt).verdict,
      (triage_group target cwe cluster gt).confidence) =
      consensus_spec (sortedSet (cluster.map (fun f => f.tool))).length
        (check_ground_truth target cwe gt) ∧
    (triage_group target cwe cluster gt).verdict ≠ "FP" := by
  refine ⟨rfl, ?_⟩
  have h : (triage_group target cwe cluster gt).verdict =
      (consensus_spec (sortedSet (cluster.map (fun f => f.tool))).length
        (check_ground_truth target cwe gt)).1 := rfl
  rw [h]
  unfold consensus_spec
  split_ifs <;> decide

/-- Claim C4, counterexample: a non-empty unparseable CWE string is not
normalized to `""`; it is stripped, uppercased and returned, violating the
claimed `"" ∨ CWE-\d+` output shape. -/
theorem c4_unparseable_cwe_not_emptied :
    normalize_cwe "sqli" = "SQLI" ∧ normalize_cwe "sqli" ≠ "" ∧
    cwe_pattern (normalize_cwe "sqli") = false := by decide

/-- Digit strings never start with `CWE-`. -/
theorem pyIsDigitStr_not_cwe (c : String) (h : pyIsDigitStr c = true) :
    strStartsWith c "CWE-" = false := by
  unfold pyIsDigitStr at h
  unfold strStartsWith
  cases hc : c.data with
  | nil => rw [hc] at h; simp at h
  | cons ch rest =>
    rw [hc] at h
    have hd : pyIsDigitChar ch = true := by
      simp only [Bool.and_eq_true, List.all_cons] at h
      exact h.2.1
    have hne : ('C' == ch) = false := by
      refine beq_eq_false_iff_ne.mpr (fun he => ?_)
      unfold pyIsDigitChar at hd
      simp only [Bool.and_eq_true, decide_eq_true_eq] at hd
      exact absurd (he ▸ hd.2) (by decide)
    show listIsPrefix ('C' :: 'W' :: 'E' :: '-' :: []) (ch :: rest) = false
    simp [listIsPrefix, hne]

/-- `CWE-` followed by a digit string matches the canonical pattern. -/
theorem cwe_pattern_of_digits (c : String) (h : pyIsDigitStr c = true) :
    cwe_pattern ("CWE-" ++ c) = true := by
  unfold cwe_pattern
  have h1 : strStartsWith ("CWE-" ++ c) "CWE-" = true := by
    unfold strStartsWith
    rw [strData_append]
    exact listIsPrefix_append _ _
  have h2 : strDrop ("CWE-" ++ c) 4 = c := by
    unfold strDrop
    rw [strData_append]
    have h4 : ("CWE-" : String).data.length = 4 := rfl
    rw [← h4, List.drop_left]
  rw [h1, h2, h]
  rfl

/-- Claim C4, amended: on the inputs the spec names — empty, bare digits, or
`CWE-`/`cwe-` digits in any case — `normalize_cwe` does return `""` or a
canonical `CWE-\d+` string (unparseable inputs instead pass through
stripped and uppercased, per the counterexample). -/
theorem c4_wellformed_cwe_normalizes (s : String)
    (h : cwe_input_wellformed s = true) :
    (normalize_cwe s = "" ∨ cwe_pattern (normalize_cwe s) = true) ∧
    normalize_cwe "79" = "CWE-79" ∧ normalize_cwe "CWE-79" = "CWE-79" ∧
    normalize_cwe "cwe-79" = "CWE-79" := by
  refine ⟨?_, by decide, by decide, by decide⟩
  by_cases hs : s = ""
  · subst hs; left; decide
  · unfold cwe_input_wellformed at h
    simp only [Bool.or_eq_true, Bool.and_eq_true, beq_iff_eq] at h
    unfold normalize_cwe
    rw [if_neg hs]
    rcases h with (hc | hd) | ⟨hcwe, hdrop⟩
    · left
      rw [hc]
      decide
    · right
      rw [if_neg (by rw [pyIsDigitStr_not_cwe _ hd]; exact fun hh => nomatch hh),
        if_pos hd]
      exact cwe_pattern_of_digits _ hd
    · right
      rw [if_pos hcwe]
      unfold cwe_pattern
      rw [hcwe, hdrop]
      rfl

/-- Witness for `c4_wellformed_cwe_normalizes` at the well-formed input
`"cwe-5"`. -/
theorem c4_wellformed_cwe_normalizes_witness :
    (normalize_cwe "cwe-5" = "" ∨ cwe_pattern (normalize_cwe "cwe-5") = true) ∧
    normalize_cwe "79" = "CWE-79" ∧ normalize_cwe "CWE-79" = "CWE-79" ∧
    normalize_cwe "cwe-79" = "CWE-79" :=
  c4_wellformed_cwe_normalizes "cwe-5" (by decide)

/-- Claim C5, counterexample: the first normalization tier is an exact-key
lookup, not the claimed case-insensitive one.  For raw `"info"` under the
nodejsscan table (`INFO → LOW`), the code returns `INFO` (via the generic
table) where the claimed behavior returns `LOW`. -/
theorem c5_tool_table_lookup_case_sensitive :
    normalize_severity "info" NODEJSSCAN_SEVERITY = "INFO" ∧
    normalize_severity_claimed "info" NODEJSSCAN_SEVERITY = "LOW" ∧
    normalize_severity "info" NODEJSSCAN_SEVERITY ≠
      normalize_severity_claimed "info" NODEJSSCAN_SEVERITY := by decide

/-- Claim C5, amended: with any tool-family table whose values are canonical
(all five shipped tables are), `normalize_severity` always returns one of
CRITICAL / HIGH / MEDIUM / LOW / INFO — never another value and never the
empty string. -/
theorem c5_severity_always_canonical (raw : String)
    (mapping : List (String × String))
    (h : ∀ p ∈ mapping, is_sev5 p.2 = true) :
    is_sev5 (normalize_severity raw mapping) = true := by
  unfold normalize_severity
  split_ifs with h1 h2 h3 h4
  · decide
  · rcases pyDictGet_mem mapping raw with he | ⟨p, hp, hv⟩
    · exact absurd he h2
    · exact hv ▸ h p hp
  · rcases pyDictGet_mem STANDARD_SEVERITY (pyLower raw) with he | ⟨p, hp, hv⟩
    · exact absurd he h3
    · refine hv ▸ ?_
      fin_cases hp <;> decide
  · exact h4
  · decide

/-- Witness for `c5_severity_always_canonical` at raw `"Negligible"` with
the grype table. -/
theorem c5_severity_always_canonical_witness :
    is_sev5 (normalize_severity "Negligible" GRYPE_SEVERITY) = true :=
  c5_severity_always_canonical "Negligible" GRYPE_SEVERITY (by decide)

/-- Claim C6, counterexample: the FN loop counts one false negative per
ground-truth row, so two rows with the same undetected CWE cost two FNs,
not at most one. -/
theorem c6_fn_counted_per_entry :
    count_fn [⟨"CWE-79"⟩, ⟨"CWE-79"⟩] [] = 2 ∧
    ¬ count_fn [⟨"CWE-79"⟩, ⟨"CWE-79"⟩] [] ≤ 1 := by decide

/-- Accumulator form of the FN loop. -/
theorem count_fn_go (tp_cwes : List String) (gt : List FmGtRow) :
    ∀ n : Nat,
      gt.foldl (fun fn row => if pyStrip row.cwe ∈ tp_cwes then fn else fn + 1) n
        = n + (gt.filter (fun r => pyStrip r.cwe ∉ tp_cwes)).length := by
  induction gt with
  | nil => intro n; simp
  | cons r rest ih =>
    intro n
    by_cases hr : pyStrip r.cwe ∈ tp_cwes
    · simp [List.foldl_cons, hr, ih]
    · simp [List.foldl_cons, hr, ih (n + 1)]
      omega

/-- Claim C6, amended: `calculate_fmeasure` counts one FN per ground-truth
entry whose stripped CWE is absent from the tool's TP CWEs (so k entries
with the same undetected CWE cost k, not 1); the per-(target, CWE)
granularity is only in coverage — entries whose CWE the tool did detect
contribute zero FN. -/
theorem c6_fn_is_uncovered_entry_count (gt : List FmGtRow)
    (tp_cwes : List String) (c : String) (hc : c ∈ tp_cwes) :
    count_fn gt tp_cwes =
      (gt.filter (fun r => pyStrip r.cwe ∉ tp_cwes)).length ∧
    count_fn (gt.filter (fun r => pyStrip r.cwe = c)) tp_cwes = 0 := by
  constructor
  · simpa [count_fn] using count_fn_go tp_cwes gt 0
  · have h2 : count_fn (gt.filter (fun r => pyStrip r.cwe = c)) tp_cwes =
        ((gt.filter (fun r => pyStrip r.cwe = c)).filter
          (fun r => pyStrip r.cwe ∉ tp_cwes)).length := by
      simpa [count_fn] using
        count_fn_go tp_cwes (gt.filter (fun r => pyStrip r.cwe = c)) 0
    rw [h2, List.length_eq_zero, List.filter_eq_nil_iff]
    intro r hr
    have h1 : pyStrip r.cwe = c := of_decide_eq_true (List.mem_filter.mp hr).2
    simp [h1, hc]

/-- Witness for `c6_fn_is_uncovered_entry_count` with `CWE-79` covered. -/
theorem c6_fn_is_uncovered_entry_count_witness :
    count_fn [⟨"CWE-79"⟩, ⟨"CWE-89"⟩] ["CWE-79"] =
      (([⟨"CWE-79"⟩, ⟨"CWE-89"⟩] : List FmGtRow).filter
        (fun r => pyStrip r.cwe ∉ ["CWE-79"])).length ∧
    count_fn (([⟨"CWE-79"⟩, ⟨"CWE-89"⟩] : List FmGtRow).filter
        (fun r => pyStrip r.cwe = "CWE-79")) ["CWE-79"] = 0 :=
  c6_fn_is_uncovered_entry_count [⟨"CWE-79"⟩, ⟨"CWE-89"⟩] ["CWE-79"]
    "CWE-79" (by decide)

/-- Claim C7 (code bug): `triage_groups` writes the tools column joined with
`"|"`, but `extract_tool_findings` splits it on `","`.  A TP group of
bearer and zap therefore credits one TP to a pseudo-tool named
`"bearer|zap"` and zero TPs to bearer and to zap. -/
theorem c7_tools_join_split_mismatch :
    c7row.tools = "bearer|zap" ∧ c7row.verdict = "TP" ∧
    (extract_tool_stats [c7row] "bearer|zap").tp = 1 ∧
    (extract_tool_stats [c7row] "bearer").tp = 0 ∧
    (extract_tool_stats [c7row] "zap").tp = 0 := by decide

/-- Claim C8: every division in the metric formulas is guarded — precision
is 0 when TP+FP = 0, recall is 0 when TP+FN = 0, and f1 is 0 when
precision + recall = 0 — so no input produces a division by zero. -/
theorem c8_metric_zero_guards (tp fp fn : ℕ) :
    (tp + fp = 0 → precision_of tp fp = 0) ∧
    (tp + fn = 0 → recall_of tp fn = 0) ∧
    (precision_of tp fp + recall_of tp fn = 0 →
      f1_of (precision_of tp fp) (recall_of tp fn) = 0) := by
  refine ⟨fun h => ?_, fun h => ?_, fun h => ?_⟩
  · rw [precision_of, if_neg (by omega)]
  · rw [recall_of, if_neg (by omega)]
  · rw [f1_of, if_neg (by rw [h]; exact lt_irrefl 0)]

/-- Witness for `c8_metric_zero_guards` at TP = FP = FN = 0. -/
theorem c8_metric_zero_guards_witness :
    precision_of 0 0 = 0 ∧ recall_of 0 0 = 0 ∧
    f1_of (precision_of 0 0) (recall_of 0 0) = 0 := by
  obtain ⟨h1, h2, h3⟩ := c8_metric_zero_guards 0 0 0
  exact ⟨h1 rfl, h2 rfl, h3 (by rw [h1 rfl, h2 rfl]; norm_num)⟩

/-- Claim C9 (code bug): an unparseable file (`load_json` → `None`) makes
`parse_trivy` return the empty list as claimed, and so does a JSON object
with no `Results`; but a file whose JSON is a non-object — the array `[]` —
raises `AttributeError` at `data.get("Results")`, aborting the run. -/
theorem c9_trivy_malformed_file_handling :
    parse_trivy none "juice-shop" = Except.ok [] ∧
    parse_trivy (some (Json.obj [])) "juice-shop" = Except.ok [] ∧
    parse_trivy (some (Json.arr [])) "juice-shop" =
      Except.error "AttributeError" :=
  ⟨rfl, rfl, rfl⟩
